import Mathlib

/-!
# Zivid Two M70 to MIL point-cloud example: model and verified properties

A shallow embedding of `MainTemplate.h` and `Zivid_ZividTwoM70_MXSP5.cpp`
(the `ZIVID_SDK_INSTALLED` branch).

Modelling conventions.

* `MIL_FLOAT` values are only ever copied by this program, never computed with,
  so the float type is a type parameter `F`.
* `MIL_UINT8` is `Fin 256`.
* `size_t` arithmetic is arithmetic modulo `2 ^ 64`.
* Host memory reached through a raw pointer is a `List` of elements starting at
  the base address; a null pointer is `none`.  A store through a null pointer or
  past the end of the allocation is undefined behaviour in C++ and is modelled
  as a fault that stops the program, keeping the memory as it was at that point.
* A vendor SDK call that raises `std::exception` is modelled by `none`.
-/

namespace ZividMil

/-! ## MainTemplate.h : data types -/

/-- The `SPoint3d` struct: three `MIL_FLOAT` coordinates. -/
structure SPoint3d (F : Type) where
  x : F
  y : F
  z : F
deriving DecidableEq

/-- The `SColor` struct: four `MIL_UINT8` channels. -/
structure SColor where
  x : Fin 256
  y : Fin 256
  z : Fin 256
  a : Fin 256
deriving DecidableEq

/-- Objects of type `SColor` in memory, by address.  `ConvertRGBBGR` takes its
argument by reference, so the destination (`this`) and `OtherColor` are both
addresses and may coincide. -/
abbrev ColorMem := Nat → SColor

/-- Assignment to one object of the colour memory. -/
def ColorMem.assign (m : ColorMem) (p : Nat) (c : SColor) : ColorMem :=
  fun q => if q = p then c else m q

/-- The method `SColor::ConvertRGBBGR(const SColor& OtherColor)`: three field
assignments executed in order, each reading `OtherColor` from current memory.
The field `a` is not assigned. -/
def ConvertRGBBGR (m : ColorMem) (self OtherColor : Nat) : ColorMem :=
  -- x = OtherColor.z;
  let m1 := m.assign self { m self with x := (m OtherColor).z }
  -- y = OtherColor.y;
  let m2 := m1.assign self { m1 self with y := (m1 OtherColor).y }
  -- z = OtherColor.x;
  m2.assign self { m2 self with z := (m2 OtherColor).x }

/-! ## Outcomes of running a function -/

/-- Result of running a function on a state: it returned a `bool` leaving the
state `s`, or the run hit undefined behaviour (an invalid memory access) with
the state as it was at that point. -/
inductive Outcome (σ : Type) where
  | returned (b : Bool) (s : σ)
  | fault (s : σ)
deriving DecidableEq

/-! ## Zivid SDK (external): the part of its interface the program uses -/

/-- The SDK struct `Zivid::PointXYZ`. -/
structure PointXYZ (F : Type) where
  x : F
  y : F
  z : F
deriving DecidableEq

/-- The SDK struct `Zivid::ColorRGBA`: four bytes `r, g, b, a` in this order. -/
structure ColorRGBA where
  r : Fin 256
  g : Fin 256
  b : Fin 256
  a : Fin 256
deriving DecidableEq

/-- The SDK struct `Zivid::PointXYZColorRGBA`. -/
structure PointXYZColorRGBA (F : Type) where
  point : PointXYZ F
  color : ColorRGBA
deriving DecidableEq

/-- The SDK struct `Zivid::SNR`. -/
structure SNR (F : Type) where
  value : F
deriving DecidableEq

/-- The SDK container `Zivid::Array2D<T>`: its own width and height and the
elements in row-major order. -/
structure Array2D (α : Type) where
  width : Nat
  height : Nat
  elems : List α
deriving DecidableEq

/-- Element access `array(i, j)` (row `i`, column `j`).  `none` when the
position lies outside the stored elements (undefined behaviour in C++). -/
def Array2D.get {α : Type} (arr : Array2D α) (i j : Nat) : Option α :=
  arr.elems[i * arr.width + j]?

/-- An array holding exactly one element per cell of a `W` by `H` grid. -/
def Array2D.IsGrid {α : Type} (arr : Array2D α) (W H : Nat) : Prop :=
  arr.width = W ∧ arr.height = H ∧ arr.elems.length = W * H

instance {α : Type} (arr : Array2D α) (W H : Nat) : Decidable (arr.IsGrid W H) := by
  unfold Array2D.IsGrid; infer_instance

/-- What the program observes of a `Zivid::PointCloud`: its size and the results
of `copyData<PointXYZColorRGBA>()` and `copySNRs()` (`none`: the call raises). -/
structure PointCloud (F : Type) where
  width : Nat
  height : Nat
  copyData : Option (Array2D (PointXYZColorRGBA F))
  copySNRs : Option (Array2D (SNR F))

/-- What the program observes of a `Zivid::Frame`: the result of `pointCloud()`
(`none`: the call raises). -/
structure Frame (F : Type) where
  pointCloud : Option (PointCloud F)

/-- The acquisition engine selected in the settings. -/
inductive Engine where
  | phase
deriving DecidableEq

/-- The fields of `Zivid::Settings` the program sets; `none` is an unset field. -/
structure Settings where
  engine : Option Engine
  aperture : Option ℚ
  exposureTime : Option Nat
  outlierRemovalEnabled : Option Bool
  outlierRemovalThreshold : Option ℚ
deriving DecidableEq

/-- What the program observes of a `Zivid::Camera`: the result of
`capture(settings)` (`none`: raises) and whether `disconnect()` completes
(`false`: raises). -/
structure Camera (F : Type) where
  capture : Settings → Option (Frame F)
  disconnect : Bool

/-- What the program observes of a `Zivid::Application`: the result of
`connectCamera()` (`none`: raises) and whether constructing a settings value is
accepted (`false`: the constructor raises). -/
structure Application (F : Type) where
  connectCamera : Option (Camera F)
  acceptsSettings : Settings → Bool

/-- The struct `SZividObjects`. -/
structure SZividObjects (F : Type) where
  Application : Application F
  Camera : Camera F
  Settings : Settings

/-! ## MIL (external): containers and their component buffers -/

/-- What the program observes of a MIL component buffer: `M_HOST_ADDRESS` (the
elements reachable from the base address, `none` for a null address) and
`M_PITCH` (in elements). -/
structure Component (α : Type) where
  host : Option (List α)
  pitch : Nat
deriving DecidableEq

/-- A MIL container with the three components the program uses; `none` is a
component that is not present (`MbufInquireContainer` yields `M_NULL`). -/
structure MilContainer (F : Type) where
  range : Option (Component (SPoint3d F))
  reflectance : Option (Component SColor)
  confidence : Option (Component F)
deriving DecidableEq

/-- The behaviour of MIL that the program depends on: what `MbufAllocComponent`
yields for each component kind given `SizeX` and `SizeY` (`none`: allocation
fails and the identifier stays `M_NULL`), and the value found in a `MIL_INT`
local that was never written. -/
structure Mil (F : Type) where
  allocRange : Nat → Nat → Option (Component (SPoint3d F))
  allocReflectance : Nat → Nat → Option (Component SColor)
  allocConfidence : Nat → Nat → Option (Component F)
  indeterminate : Nat

/-! ## Zivid_ZividTwoM70_MXSP5.cpp -/

variable {F : Type}

/-- The function `Init<SZividObjects>`. -/
def Init (p3dSensor : SZividObjects F) : Outcome (SZividObjects F) :=
  match p3dSensor.Application.connectCamera with
  | some cam => .returned true { p3dSensor with Camera := cam }
  | none => .returned false p3dSensor

/-- Constant `EXPOSURE_TIME`, in microseconds. -/
def EXPOSURE_TIME : Nat := 5000

/-- Constant `OUTLIER_THRESHOLD`. -/
def OUTLIER_THRESHOLD : ℚ := 10

/-- Constant `APERTURE`. -/
def APERTURE : ℚ := 2

/-- The settings value built in `SetupForExample`. -/
def exampleSettings : Settings :=
  { engine := some .phase
    aperture := some APERTURE
    exposureTime := some EXPOSURE_TIME
    outlierRemovalEnabled := some true
    outlierRemovalThreshold := some OUTLIER_THRESHOLD }

/-- The function `SetupForExample<SZividObjects>`. -/
def SetupForExample (p3dSensor : SZividObjects F) : Outcome (SZividObjects F) :=
  if p3dSensor.Application.acceptsSettings exampleSettings then
    .returned true { p3dSensor with Settings := exampleSettings }
  else
    .returned false p3dSensor

/-- The function `Free<SZividObjects>`. -/
def Free (p3dSensor : SZividObjects F) : Outcome (SZividObjects F) :=
  if p3dSensor.Camera.disconnect then .returned true p3dSensor
  else .returned false p3dSensor

/-- The function template `GetZividComponent`.  `slot` is the component of the
requested kind in the container; `pData` and `pPitch` are the values of the
caller variables the last two arguments point to.  Returns the component now in
the container (also the returned identifier) and the new `*pData`, `*pPitch`.
`MbufInquire` on a null identifier leaves its output untouched. -/
def GetZividComponent {α : Type} (slot : Option (Component α))
    (MbufAllocComponent : Nat → Nat → Option (Component α)) (SizeX SizeY : Nat)
    (pData : Option (List α)) (pPitch : Nat) :
    Option (Component α) × Option (List α) × Nat :=
  let MilComponent :=
    match slot with
    | some c => some c
    | none => MbufAllocComponent SizeX SizeY
  match MilComponent with
  | some c => (MilComponent, c.host, c.pitch)
  | none => (MilComponent, pData, pPitch)

/-- Host memory reached from the three base pointers of `Grab`. -/
structure HostMem (F : Type) where
  pPointCloud : Option (List (SPoint3d F))
  pReflectance : Option (List SColor)
  pConfidence : Option (List F)
deriving DecidableEq

/-- A store `p[i] = f (p[i])` through a raw pointer: `none` is a fault (null
base, or `i` outside the allocation). -/
def store {α : Type} (p : Option (List α)) (i : Nat) (f : α → α) : Option (List α) :=
  match p with
  | none => none
  | some buf =>
    match buf[i]? with
    | none => none
    | some e => some (buf.set i (f e))

/-- Store into the element `pPointCloud[i]`. -/
def HostMem.storePoint (m : HostMem F) (i : Nat) (f : SPoint3d F → SPoint3d F) :
    Except (HostMem F) (HostMem F) :=
  match store m.pPointCloud i f with
  | some buf => .ok { m with pPointCloud := some buf }
  | none => .error m

/-- Store into the element `pReflectance[i]`. -/
def HostMem.storeColor (m : HostMem F) (i : Nat) (f : SColor → SColor) :
    Except (HostMem F) (HostMem F) :=
  match store m.pReflectance i f with
  | some buf => .ok { m with pReflectance := some buf }
  | none => .error m

/-- Store into the element `pConfidence[i]`. -/
def HostMem.storeConfidence (m : HostMem F) (i : Nat) (f : F → F) :
    Except (HostMem F) (HostMem F) :=
  match store m.pConfidence i f with
  | some buf => .ok { m with pConfidence := some buf }
  | none => .error m

/-- The linear index `x + y * Pitch`, computed in `size_t`. -/
def linearIndex (x y Pitch : Nat) : Nat := (x + y * Pitch) % 2 ^ 64

/-- The cast `*((SColor*)&currentPoint.color)`: the four bytes of the SDK colour
read as an `SColor`, in memory order. -/
def asSColor (c : ColorRGBA) : SColor := ⟨c.r, c.g, c.b, c.a⟩

/-- Body of the inner loop of `Grab` for the sample at row `y`, column `x`. -/
def copySample (data : Array2D (PointXYZColorRGBA F)) (snr : Array2D (SNR F))
    (PointCloudPitch ReflectancePitch ConfidencePitch y : Nat)
    (m : HostMem F) (x : Nat) : Except (HostMem F) (HostMem F) :=
  match data.get y x, snr.get y x with
  | some currentPoint, some currentPointSnr => do
    let m ← m.storePoint (linearIndex x y PointCloudPitch)
      (fun e => { e with x := currentPoint.point.x })
    let m ← m.storePoint (linearIndex x y PointCloudPitch)
      (fun e => { e with y := currentPoint.point.y })
    let m ← m.storePoint (linearIndex x y PointCloudPitch)
      (fun e => { e with z := currentPoint.point.z })
    let m ← m.storeColor (linearIndex x y ReflectancePitch)
      (fun _ => asSColor currentPoint.color)
    m.storeConfidence (linearIndex x y ConfidencePitch) (fun _ => currentPointSnr.value)
  | _, _ => .error m

/-- The inner loop `for (size_t x = 0; x < width; x++)` of `Grab` for row `y`. -/
def copyRow (data : Array2D (PointXYZColorRGBA F)) (snr : Array2D (SNR F))
    (width PointCloudPitch ReflectancePitch ConfidencePitch : Nat)
    (m : HostMem F) (y : Nat) : Except (HostMem F) (HostMem F) :=
  (List.range width).foldlM
    (copySample data snr PointCloudPitch ReflectancePitch ConfidencePitch y) m

/-- The outer loop `for (size_t y = 0; y < height; y++)` of `Grab`. -/
def copyLoop (data : Array2D (PointXYZColorRGBA F)) (snr : Array2D (SNR F))
    (width height PointCloudPitch ReflectancePitch ConfidencePitch : Nat)
    (m : HostMem F) : Except (HostMem F) (HostMem F) :=
  (List.range height).foldlM
    (copyRow data snr width PointCloudPitch ReflectancePitch ConfidencePitch) m

/-- The container whose component buffers hold the host memory `m`. -/
def MilContainer.withHost (k : MilContainer F) (m : HostMem F) : MilContainer F :=
  { range := k.range.map fun c => { c with host := m.pPointCloud }
    reflectance := k.reflectance.map fun c => { c with host := m.pReflectance }
    confidence := k.confidence.map fun c => { c with host := m.pConfidence } }

/-- The function `Grab<SZividObjects>`.  The state is the MIL container. -/
def Grab (mil : Mil F) (p3dSensor : SZividObjects F)
    (MilContainer : ZividMil.MilContainer F) : Outcome (ZividMil.MilContainer F) :=
  match p3dSensor.Camera.capture p3dSensor.Settings with
  | none => .returned false MilContainer
  | some Frame =>
    match Frame.pointCloud with
    | none => .returned false MilContainer
    | some PointCloud =>
      let (RangeComponent, pPointCloud, PointCloudPitch) :=
        GetZividComponent MilContainer.range mil.allocRange
          PointCloud.width PointCloud.height none mil.indeterminate
      let (ReflectanceComponent, pReflectance, ReflectancePitch) :=
        GetZividComponent MilContainer.reflectance mil.allocReflectance
          PointCloud.width PointCloud.height none mil.indeterminate
      let (ConfidenceComponent, pConfidence, ConfidencePitch) :=
        GetZividComponent MilContainer.confidence mil.allocConfidence
          PointCloud.width PointCloud.height none mil.indeterminate
      let ensured : ZividMil.MilContainer F :=
        { range := RangeComponent
          reflectance := ReflectanceComponent
          confidence := ConfidenceComponent }
      match PointCloud.copyData with
      | none => .returned false ensured
      | some data =>
        match PointCloud.copySNRs with
        | none => .returned false ensured
        | some snr =>
          match copyLoop data snr PointCloud.width PointCloud.height
              PointCloudPitch ReflectancePitch ConfidencePitch
              ⟨pPointCloud, pReflectance, pConfidence⟩ with
          | .ok m => .returned true (ensured.withHost m)
          | .error m => .fault (ensured.withHost m)

/-! ## MainTemplate.h : the example driver -/

/-- Calls made by `Interface3dCameraExample`, in the order they are made. -/
inductive Event where
  | MappAlloc
  | MsysAlloc
  | Init
  | SetupForExample
  | MbufAllocContainer
  | PromptContinue
  | Grab
  | PrintUnableToAcquire
  | MbufControlContainer
  | DisplayPointCloudData
  | MbufFree
  | Free
  | PrintErrorOccured
  | PromptEnd
  | MsysFree
  | MappFree
deriving DecidableEq

/-- The four stage functions the driver template is instantiated with, for a
sensor type `T` and containers of type `K`.  Each works on the sensor object
through a pointer and so may change it; `Grab` also works on the container. -/
structure Sensor3d (T K : Type) where
  Init : T → Outcome T
  SetupForExample : T → Outcome T
  Grab : T → K → Outcome (T × K)
  Free : T → Outcome T

/-- One run of the driver: the calls made, the final value of the local
`Success`, and the value returned by the driver (`none` when a stage hit
undefined behaviour and the driver never returned). -/
structure Run where
  trace : List Event
  Success : Bool
  exitCode : Option Int
deriving DecidableEq

/-- Lines 87 to 97 of the driver: the error message when `Success` is false,
the final prompt, and the release of the MIL objects. -/
def finish (trace : List Event) (Success : Bool) : Run :=
  let trace := if !Success then trace ++ [.PrintErrorOccured] else trace
  { trace := trace ++ [.PromptEnd, .MsysFree, .MappFree]
    Success := Success
    exitCode := some 0 }

/-- Line 84 of the driver onwards: `Free(pSensor3d)` (its result is ignored),
then the epilogue. -/
def freeDevice {T K : Type} (S : Sensor3d T K) (trace : List Event) (pSensor3d : T)
    (Success : Bool) : Run :=
  match S.Free pSensor3d with
  | .returned _ _ => finish (trace ++ [.Free]) Success
  | .fault _ => { trace := trace ++ [.Free], Success := Success, exitCode := none }

/-- The function template `Interface3dCameraExample`.  `MbufAllocContainer` is
the container MIL hands out.  The parameter `InvalidValue` of the source is
never used and is omitted. -/
def Interface3dCameraExample {T K : Type} (S : Sensor3d T K) (MbufAllocContainer : K)
    (pSensor3d : T) : Run :=
  let trace : List Event := [.MappAlloc, .MsysAlloc, .Init]
  match S.Init pSensor3d with
  | .fault _ => { trace := trace, Success := false, exitCode := none }
  | .returned false _ => finish trace false
  | .returned true s1 =>
    let trace := trace ++ [.SetupForExample]
    match S.SetupForExample s1 with
    | .fault _ => { trace := trace, Success := false, exitCode := none }
    | .returned false s2 => freeDevice S trace s2 false
    | .returned true s2 =>
      let MilContainer := MbufAllocContainer
      let trace := trace ++ [.MbufAllocContainer, .PromptContinue, .Grab]
      match S.Grab s2 MilContainer with
      | .fault _ => { trace := trace, Success := false, exitCode := none }
      | .returned false (s3, _) =>
        freeDevice S (trace ++ [.PrintUnableToAcquire, .MbufFree]) s3 false
      | .returned true (s3, _) =>
        freeDevice S
          (trace ++ [.MbufControlContainer, .DisplayPointCloudData, .MbufFree]) s3 true

/-- The stage functions for `SZividObjects`.  Grab leaves the fields of the
sensor object as they are. -/
def zividStages (mil : Mil F) : Sensor3d (SZividObjects F) (MilContainer F) :=
  { Init := Init
    SetupForExample := SetupForExample
    Grab := fun s k =>
      match Grab mil s k with
      | .returned b kOut => .returned b (s, kOut)
      | .fault kOut => .fault (s, kOut)
    Free := Free }

/-! ## Specification vocabulary -/

/-- The calls of the driver that run a stage of the pipeline or touch the
container. -/
def Event.isStage : Event → Bool
  | .Init | .SetupForExample | .MbufAllocContainer | .Grab | .MbufControlContainer
  | .DisplayPointCloudData | .MbufFree | .Free => true
  | _ => false

/-- The capture fails: `Camera.capture` raises, or `Frame.pointCloud` raises. -/
def CaptureFails (cam : Camera F) (settings : Settings) : Prop :=
  cam.capture settings = none ∨
    ∃ frame, cam.capture settings = some frame ∧ frame.pointCloud = none

/-- A host allocation of `len` elements (at most `2 ^ 64` of them) contains the
linear index of every cell of a `W` by `H` grid laid out with row pitch `P`. -/
def InBounds (W H P len : Nat) : Prop :=
  len ≤ 2 ^ 64 ∧ ∀ y < H, ∀ x < W, x + y * P < len

instance (W H P len : Nat) : Decidable (InBounds W H P len) := by
  unfold InBounds; infer_instance

/-- The set of linear indices `x + y * P` with `x < W` and `y < H`. -/
def gridIndexSet (W H P : Nat) : Finset Nat :=
  (Finset.range H ×ˢ Finset.range W).image fun yx => yx.2 + yx.1 * P

/-- The position stored for frame sample `(y, x)`. -/
def pointAt (data : Array2D (PointXYZColorRGBA F)) (y x : Nat) : Option (SPoint3d F) :=
  (data.get y x).map fun p => ⟨p.point.x, p.point.y, p.point.z⟩

/-- The colour stored for frame sample `(y, x)`. -/
def colorAt (data : Array2D (PointXYZColorRGBA F)) (y x : Nat) : Option SColor :=
  (data.get y x).map fun p => asSColor p.color

/-- The confidence stored for frame sample `(y, x)`. -/
def confidenceAt (snr : Array2D (SNR F)) (y x : Nat) : Option F :=
  (snr.get y x).map fun s => s.value

/-- Pure counterpart of one row of stores into one buffer: `v y x`, when
defined, is stored at index `x + y * P` for `x = 0, ..., W - 1` in turn. -/
def writeRow {α : Type} (v : Nat → Nat → Option α) (P W y : Nat) (buf : List α) : List α :=
  (List.range W).foldl
    (fun b x =>
      match v y x with
      | some a => b.set (x + y * P) a
      | none => b) buf

/-- Pure counterpart of the stores of the whole loop nest into one buffer. -/
def writeGrid {α : Type} (v : Nat → Nat → Option α) (P W H : Nat) (buf : List α) : List α :=
  (List.range H).foldl (fun b y => writeRow v P W y b) buf

/-- The buffer `after` has the length of `before`, holds `v y x` at index
`x + y * P` for every cell of the `W` by `H` grid, and agrees with `before` at
every index outside `gridIndexSet W H P`. -/
def WritesExactlyGrid {α : Type} (v : Nat → Nat → Option α) (W H P : Nat)
    (before after : List α) : Prop :=
  after.length = before.length ∧
  (∀ y < H, ∀ x < W, ∃ a, v y x = some a ∧ after[x + y * P]? = some a) ∧
  (∀ j, j ∉ gridIndexSet W H P → after[j]? = before[j]?)

/-! ## Concrete inputs -/

/-- A colour memory with `(10, 20, 30, 255)` at address 1 and zeros elsewhere. -/
def colourMemScenario : ColorMem :=
  fun p => if p = 1 then ⟨10, 20, 30, 255⟩ else ⟨0, 0, 0, 0⟩

/-- Position and colour array of the 2 by 1 scenario frame. -/
def scenarioData : Array2D (PointXYZColorRGBA ℚ) :=
  ⟨2, 1, [⟨⟨1, 2, 3⟩, ⟨10, 20, 30, 255⟩⟩, ⟨⟨4, 5, 6⟩, ⟨40, 50, 60, 255⟩⟩]⟩

/-- Confidence array of the 2 by 1 scenario frame. -/
def scenarioSnr : Array2D (SNR ℚ) := ⟨2, 1, [⟨0.9⟩, ⟨0.5⟩]⟩

/-- Position and colour array of a 1 by 1 frame. -/
def singleData : Array2D (PointXYZColorRGBA ℚ) := ⟨1, 1, [⟨⟨1, 2, 3⟩, ⟨10, 20, 30, 255⟩⟩]⟩

/-- Confidence array of a 1 by 1 frame. -/
def singleSnr : Array2D (SNR ℚ) := ⟨1, 1, [⟨0.9⟩]⟩

/-- Settings with every field unset. -/
def unsetSettings : Settings := ⟨none, none, none, none, none⟩

/-- A sensor whose camera is connected, accepts every settings value and
captures the given point cloud. -/
def sensorCapturing (cloud : PointCloud ℚ) : SZividObjects ℚ :=
  { Application :=
      { connectCamera := some ⟨fun _ => some ⟨some cloud⟩, true⟩
        acceptsSettings := fun _ => true }
    Camera := ⟨fun _ => some ⟨some cloud⟩, true⟩
    Settings := unsetSettings }

/-- The sensor capturing the 2 by 1 scenario frame. -/
def scenarioSensor : SZividObjects ℚ :=
  sensorCapturing ⟨2, 1, some scenarioData, some scenarioSnr⟩

/-- A sensor capturing a 1 by 1 frame. -/
def singleSensor : SZividObjects ℚ :=
  sensorCapturing ⟨1, 1, some singleData, some singleSnr⟩

/-- A sensor capturing a frame with no samples. -/
def emptyFrameSensor : SZividObjects ℚ :=
  sensorCapturing ⟨0, 0, some ⟨0, 0, []⟩, some ⟨0, 0, []⟩⟩

/-- A sensor to which no camera can be connected. -/
def unpluggedSensor : SZividObjects ℚ :=
  { Application := { connectCamera := none, acceptsSettings := fun _ => true }
    Camera := ⟨fun _ => none, true⟩
    Settings := unsetSettings }

/-- A sensor whose camera connects but whose capture raises. -/
def blindSensor : SZividObjects ℚ :=
  { Application :=
      { connectCamera := some ⟨fun _ => none, true⟩
        acceptsSettings := fun _ => true }
    Camera := ⟨fun _ => none, true⟩
    Settings := unsetSettings }

/-- MIL allocating zero-filled buffers without row padding (pitch `SizeX`). -/
def packedMil : Mil ℚ :=
  { allocRange := fun X Y => some ⟨some (List.replicate (X * Y) ⟨0, 0, 0⟩), X⟩
    allocReflectance := fun X Y => some ⟨some (List.replicate (X * Y) ⟨0, 0, 0, 0⟩), X⟩
    allocConfidence := fun X Y => some ⟨some (List.replicate (X * Y) 0), X⟩
    indeterminate := 0 }

/-- MIL in which every component allocation fails. -/
def exhaustedMil : Mil ℚ :=
  { allocRange := fun _ _ => none
    allocReflectance := fun _ _ => none
    allocConfidence := fun _ _ => none
    indeterminate := 0 }

/-- A container without components. -/
def emptyContainer : MilContainer ℚ := ⟨none, none, none⟩

/-- A container holding one-element range and confidence components and no
reflectance component. -/
def noReflectanceContainer : MilContainer ℚ :=
  ⟨some ⟨some [⟨0, 0, 0⟩], 1⟩, none, some ⟨some [0], 1⟩⟩

/-! ## Lemmas: colour conversion -/

theorem ConvertRGBBGR_apply (m : ColorMem) (self OtherColor : Nat) (h : self ≠ OtherColor) :
    ConvertRGBBGR m self OtherColor self =
        ⟨(m OtherColor).z, (m OtherColor).y, (m OtherColor).x, (m self).a⟩ ∧
      ∀ q, q ≠ self → ConvertRGBBGR m self OtherColor q = m q := by
  have h' : ¬ OtherColor = self := fun e => h e.symm
  constructor
  · simp [ConvertRGBBGR, ColorMem.assign, h']
  · intro q hq
    simp [ConvertRGBBGR, ColorMem.assign, hq]

/-! ## Lemmas: stores into one buffer -/

theorem writeRow_succ {α : Type} (v : Nat → Nat → Option α) (P W y : Nat) (buf : List α) :
    writeRow v P (W + 1) y buf =
      match v y W with
      | some a => (writeRow v P W y buf).set (W + y * P) a
      | none => writeRow v P W y buf := by
  simp [writeRow, List.range_succ, List.foldl_append]

theorem writeGrid_succ {α : Type} (v : Nat → Nat → Option α) (P W H : Nat) (buf : List α) :
    writeGrid v P W (H + 1) buf = writeRow v P W H (writeGrid v P W H buf) := by
  simp [writeGrid, List.range_succ, List.foldl_append]

theorem length_writeRow {α : Type} (v : Nat → Nat → Option α) (P W y : Nat) (buf : List α) :
    (writeRow v P W y buf).length = buf.length := by
  induction W with
  | zero => simp [writeRow]
  | succ n ih =>
    rw [writeRow_succ]
    cases v y n <;> simp [ih]

theorem length_writeGrid {α : Type} (v : Nat → Nat → Option α) (P W H : Nat) (buf : List α) :
    (writeGrid v P W H buf).length = buf.length := by
  induction H with
  | zero => simp [writeGrid]
  | succ n ih => rw [writeGrid_succ, length_writeRow, ih]

/-- A row of stores leaves every index that is not a cell of that row alone. -/
theorem writeRow_frame {α : Type} (v : Nat → Nat → Option α) (P W y : Nat) (buf : List α)
    (j : Nat) (hj : ∀ x < W, j ≠ x + y * P) : (writeRow v P W y buf)[j]? = buf[j]? := by
  induction W with
  | zero => simp [writeRow]
  | succ n ih =>
    have ih1 := ih (fun x hx => hj x (Nat.lt_succ_of_lt hx))
    rw [writeRow_succ]
    cases hv : v y n with
    | none => simpa using ih1
    | some a =>
      have hne : n + y * P ≠ j := fun h => hj n (Nat.lt_succ_self n) h.symm
      simp only [List.getElem?_set_ne hne]
      exact ih1

/-- After a row of stores, the cell `(y, x)` holds its value. -/
theorem writeRow_val {α : Type} (v : Nat → Nat → Option α) (P W y : Nat) (buf : List α)
    (x : Nat) (a : α) (hx : x < W) (hin : x + y * P < buf.length) (hv : v y x = some a) :
    (writeRow v P W y buf)[x + y * P]? = some a := by
  induction W with
  | zero => exact absurd hx (Nat.not_lt_zero x)
  | succ n ih =>
    rw [writeRow_succ]
    rcases Nat.lt_succ_iff_lt_or_eq.mp hx with hlt | heq
    · have ih1 := ih hlt
      cases hvn : v y n with
      | none => simpa using ih1
      | some b =>
        have hne : n + y * P ≠ x + y * P := by omega
        simp only [List.getElem?_set_ne hne]
        exact ih1
    · subst heq
      rw [hv]
      simp only
      rw [List.getElem?_set]
      simp [length_writeRow, hin]

theorem writeGrid_frame {α : Type} (v : Nat → Nat → Option α) (P W H : Nat) (buf : List α)
    (j : Nat) (hj : ∀ y < H, ∀ x < W, j ≠ x + y * P) :
    (writeGrid v P W H buf)[j]? = buf[j]? := by
  induction H with
  | zero => simp [writeGrid]
  | succ n ih =>
    rw [writeGrid_succ, writeRow_frame v P W n _ j (hj n (Nat.lt_succ_self n))]
    exact ih (fun y hy => hj y (Nat.lt_succ_of_lt hy))

/-- With `W ≤ P`, every cell of an earlier row lies before every index of a
later row. -/
theorem index_lt_next_row {P W x y n : Nat} (hP : W ≤ P) (hx : x < W) (hy : y < n)
    (x' : Nat) : x + y * P < x' + n * P := by
  have h1 : (y + 1) * P ≤ n * P := Nat.mul_le_mul_right P hy
  have h2 : (y + 1) * P = y * P + P := by ring
  omega

theorem writeGrid_val {α : Type} (v : Nat → Nat → Option α) (P W H : Nat) (buf : List α)
    (x y : Nat) (a : α) (hP : W ≤ P) (hx : x < W) (hy : y < H)
    (hin : x + y * P < buf.length) (hv : v y x = some a) :
    (writeGrid v P W H buf)[x + y * P]? = some a := by
  induction H with
  | zero => exact absurd hy (Nat.not_lt_zero y)
  | succ n ih =>
    rw [writeGrid_succ]
    rcases Nat.lt_succ_iff_lt_or_eq.mp hy with hlt | heq
    · rw [writeRow_frame v P W n _ (x + y * P)
        (fun x' _ => Nat.ne_of_lt (index_lt_next_row hP hx hlt x'))]
      exact ih hlt
    · subst heq
      exact writeRow_val v P W y _ x a hx (by rw [length_writeGrid]; exact hin) hv

theorem mem_gridIndexSet (W H P j : Nat) :
    j ∈ gridIndexSet W H P ↔ ∃ y < H, ∃ x < W, j = x + y * P := by
  simp only [gridIndexSet, Finset.mem_image, Finset.mem_product, Finset.mem_range, Prod.exists]
  constructor
  · rintro ⟨y, x, ⟨hy, hx⟩, rfl⟩
    exact ⟨y, hy, x, hx, rfl⟩
  · rintro ⟨y, hy, x, hx, rfl⟩
    exact ⟨y, x, ⟨hy, hx⟩, rfl⟩

theorem gridIndex_inj {W P x y x' y' : Nat} (hP : W ≤ P) (hx : x < W) (hx' : x' < W)
    (h : x + y * P = x' + y' * P) : x = x' ∧ y = y' := by
  rcases Nat.lt_trichotomy y y' with hlt | heq | hgt
  · exact absurd h (Nat.ne_of_lt (index_lt_next_row hP hx hlt x'))
  · subst heq
    exact ⟨by omega, rfl⟩
  · exact absurd h.symm (Nat.ne_of_lt (index_lt_next_row hP hx' hgt x))

theorem card_gridIndexSet (W H P : Nat) (hP : W ≤ P) : (gridIndexSet W H P).card = W * H := by
  unfold gridIndexSet
  rw [Finset.card_image_of_injOn, Finset.card_product, Finset.card_range, Finset.card_range,
    Nat.mul_comm]
  intro p hp q hq h
  simp only [Finset.coe_product, Finset.coe_range, Set.mem_prod, Set.mem_Iio] at hp hq
  obtain ⟨h1, h2⟩ := gridIndex_inj hP hp.2 hq.2 h
  exact Prod.ext h2 h1

theorem padding_not_mem_gridIndexSet (W H P j : Nat) (hP : W ≤ P) (hj : W ≤ j % P) :
    j ∉ gridIndexSet W H P := by
  rw [mem_gridIndexSet]
  rintro ⟨y, _, x, hx, rfl⟩
  rw [Nat.add_mul_mod_self_right, Nat.mod_eq_of_lt (Nat.lt_of_lt_of_le hx hP)] at hj
  omega

theorem writeGrid_exact {α : Type} (v : Nat → Nat → Option α) (W H P : Nat) (buf : List α)
    (hP : W ≤ P) (hv : ∀ y < H, ∀ x < W, (v y x).isSome)
    (hin : ∀ y < H, ∀ x < W, x + y * P < buf.length) :
    WritesExactlyGrid v W H P buf (writeGrid v P W H buf) := by
  refine ⟨length_writeGrid v P W H buf, ?_, ?_⟩
  · intro y hy x hx
    obtain ⟨a, ha⟩ := Option.isSome_iff_exists.mp (hv y hy x hx)
    exact ⟨a, ha, writeGrid_val v P W H buf x y a hP hx hy (hin y hy x hx) ha⟩
  · intro j hj
    apply writeGrid_frame
    intro y hy x hx e
    exact hj ((mem_gridIndexSet W H P j).mpr ⟨y, hy, x, hx, e⟩)

/-! ## Lemmas: the copy loop of Grab -/

theorem linearIndex_eq {x y P len : Nat} (h : x + y * P < len) (h64 : len ≤ 2 ^ 64) :
    linearIndex x y P = x + y * P :=
  Nat.mod_eq_of_lt (Nat.lt_of_lt_of_le h h64)

theorem IsGrid_get_isSome {β : Type} (arr : Array2D β) (W H y x : Nat) (h : arr.IsGrid W H)
    (hy : y < H) (hx : x < W) : (arr.get y x).isSome := by
  obtain ⟨hw, _, hl⟩ := h
  have h1 : (y + 1) * W ≤ H * W := Nat.mul_le_mul_right W hy
  have h2 : (y + 1) * W = y * W + W := by ring
  have h3 : H * W = W * H := Nat.mul_comm H W
  have : y * arr.width + x < arr.elems.length := by rw [hw, hl]; omega
  simp [Array2D.get, List.getElem?_eq_getElem this]

/-- One iteration of the loop body on valid pointers and in-range indices: the
three buffers receive the sample. -/
theorem copySample_ok (data : Array2D (PointXYZColorRGBA F)) (snr : Array2D (SNR F))
    (Pg Pr Pc y x : Nat) (geom : List (SPoint3d F)) (refl : List SColor) (conf : List F)
    (p : PointXYZColorRGBA F) (s : SNR F)
    (hd : data.get y x = some p) (hs : snr.get y x = some s)
    (hg : x + y * Pg < geom.length) (hg64 : geom.length ≤ 2 ^ 64)
    (hr : x + y * Pr < refl.length) (hr64 : refl.length ≤ 2 ^ 64)
    (hc : x + y * Pc < conf.length) (hc64 : conf.length ≤ 2 ^ 64) :
    copySample data snr Pg Pr Pc y ⟨some geom, some refl, some conf⟩ x =
      .ok ⟨some (geom.set (x + y * Pg) ⟨p.point.x, p.point.y, p.point.z⟩),
           some (refl.set (x + y * Pr) (asSColor p.color)),
           some (conf.set (x + y * Pc) s.value)⟩ := by
  simp [copySample, hd, hs, HostMem.storePoint, HostMem.storeColor, HostMem.storeConfidence,
    store, linearIndex_eq hg hg64, linearIndex_eq hr hr64, linearIndex_eq hc hc64,
    List.getElem?_eq_getElem hg, List.getElem?_eq_getElem hr, List.getElem?_eq_getElem hc,
    List.getElem?_set_self hg, List.set_set, bind, Except.bind]

theorem copyRow_succ (data : Array2D (PointXYZColorRGBA F)) (snr : Array2D (SNR F))
    (n Pg Pr Pc y : Nat) (m : HostMem F) :
    copyRow data snr (n + 1) Pg Pr Pc m y =
      (copyRow data snr n Pg Pr Pc m y >>= fun m1 => copySample data snr Pg Pr Pc y m1 n) := by
  simp [copyRow, List.range_succ, List.foldlM_append]

theorem copyLoop_succ (data : Array2D (PointXYZColorRGBA F)) (snr : Array2D (SNR F))
    (W n Pg Pr Pc : Nat) (m : HostMem F) :
    copyLoop data snr W (n + 1) Pg Pr Pc m =
      (copyLoop data snr W n Pg Pr Pc m >>= fun m1 => copyRow data snr W Pg Pr Pc m1 n) := by
  simp [copyLoop, List.range_succ, List.foldlM_append]

theorem copyRow_ok (data : Array2D (PointXYZColorRGBA F)) (snr : Array2D (SNR F))
    (Pg Pr Pc y : Nat) (geom : List (SPoint3d F)) (refl : List SColor) (conf : List F)
    (n : Nat)
    (hd : ∀ x < n, (data.get y x).isSome) (hs : ∀ x < n, (snr.get y x).isSome)
    (hg : ∀ x < n, x + y * Pg < geom.length) (hg64 : geom.length ≤ 2 ^ 64)
    (hr : ∀ x < n, x + y * Pr < refl.length) (hr64 : refl.length ≤ 2 ^ 64)
    (hc : ∀ x < n, x + y * Pc < conf.length) (hc64 : conf.length ≤ 2 ^ 64) :
    copyRow data snr n Pg Pr Pc ⟨some geom, some refl, some conf⟩ y =
      .ok ⟨some (writeRow (pointAt data) Pg n y geom),
           some (writeRow (colorAt data) Pr n y refl),
           some (writeRow (confidenceAt snr) Pc n y conf)⟩ := by
  induction n with
  | zero => simp [copyRow, writeRow, pure, Except.pure]
  | succ n ih =>
    have ih1 := ih (fun x hx => hd x (Nat.lt_succ_of_lt hx))
      (fun x hx => hs x (Nat.lt_succ_of_lt hx)) (fun x hx => hg x (Nat.lt_succ_of_lt hx))
      (fun x hx => hr x (Nat.lt_succ_of_lt hx)) (fun x hx => hc x (Nat.lt_succ_of_lt hx))
    obtain ⟨p, hp⟩ := Option.isSome_iff_exists.mp (hd n (Nat.lt_succ_self n))
    obtain ⟨s, hs1⟩ := Option.isSome_iff_exists.mp (hs n (Nat.lt_succ_self n))
    rw [copyRow_succ, ih1]
    simp only [bind, Except.bind]
    rw [copySample_ok data snr Pg Pr Pc y n _ _ _ p s hp hs1
      (by rw [length_writeRow]; exact hg n (Nat.lt_succ_self n))
      (by rw [length_writeRow]; exact hg64)
      (by rw [length_writeRow]; exact hr n (Nat.lt_succ_self n))
      (by rw [length_writeRow]; exact hr64)
      (by rw [length_writeRow]; exact hc n (Nat.lt_succ_self n))
      (by rw [length_writeRow]; exact hc64)]
    simp [writeRow_succ, pointAt, colorAt, confidenceAt, hp, hs1]

theorem copyLoop_ok (data : Array2D (PointXYZColorRGBA F)) (snr : Array2D (SNR F))
    (W Pg Pr Pc : Nat) (geom : List (SPoint3d F)) (refl : List SColor) (conf : List F)
    (n : Nat)
    (hd : ∀ y < n, ∀ x < W, (data.get y x).isSome)
    (hs : ∀ y < n, ∀ x < W, (snr.get y x).isSome)
    (hg : ∀ y < n, ∀ x < W, x + y * Pg < geom.length) (hg64 : geom.length ≤ 2 ^ 64)
    (hr : ∀ y < n, ∀ x < W, x + y * Pr < refl.length) (hr64 : refl.length ≤ 2 ^ 64)
    (hc : ∀ y < n, ∀ x < W, x + y * Pc < conf.length) (hc64 : conf.length ≤ 2 ^ 64) :
    copyLoop data snr W n Pg Pr Pc ⟨some geom, some refl, some conf⟩ =
      .ok ⟨some (writeGrid (pointAt data) Pg W n geom),
           some (writeGrid (colorAt data) Pr W n refl),
           some (writeGrid (confidenceAt snr) Pc W n conf)⟩ := by
  induction n with
  | zero => simp [copyLoop, writeGrid, pure, Except.pure]
  | succ n ih =>
    have ih1 := ih (fun y hy => hd y (Nat.lt_succ_of_lt hy))
      (fun y hy => hs y (Nat.lt_succ_of_lt hy)) (fun y hy => hg y (Nat.lt_succ_of_lt hy))
      (fun y hy => hr y (Nat.lt_succ_of_lt hy)) (fun y hy => hc y (Nat.lt_succ_of_lt hy))
    rw [copyLoop_succ, ih1]
    simp only [bind, Except.bind]
    rw [copyRow_ok data snr Pg Pr Pc n _ _ _ W (hd n (Nat.lt_succ_self n))
      (hs n (Nat.lt_succ_self n))
      (by rw [length_writeGrid]; exact hg n (Nat.lt_succ_self n))
      (by rw [length_writeGrid]; exact hg64)
      (by rw [length_writeGrid]; exact hr n (Nat.lt_succ_self n))
      (by rw [length_writeGrid]; exact hr64)
      (by rw [length_writeGrid]; exact hc n (Nat.lt_succ_self n))
      (by rw [length_writeGrid]; exact hc64)]
    simp [writeGrid_succ]

/-- On a well-formed frame and buffers that contain the grid, the copy loop
completes, and each buffer is the pure grid write of its channel. -/
theorem copyLoop_grid (data : Array2D (PointXYZColorRGBA F)) (snr : Array2D (SNR F))
    (W H Pg Pr Pc : Nat) (geom : List (SPoint3d F)) (refl : List SColor) (conf : List F)
    (hdata : data.IsGrid W H) (hsnr : snr.IsGrid W H)
    (hg : InBounds W H Pg geom.length) (hr : InBounds W H Pr refl.length)
    (hc : InBounds W H Pc conf.length) :
    copyLoop data snr W H Pg Pr Pc ⟨some geom, some refl, some conf⟩ =
      .ok ⟨some (writeGrid (pointAt data) Pg W H geom),
           some (writeGrid (colorAt data) Pr W H refl),
           some (writeGrid (confidenceAt snr) Pc W H conf)⟩ :=
  copyLoop_ok data snr W Pg Pr Pc geom refl conf H
    (fun y hy x hx => IsGrid_get_isSome data W H y x hdata hy hx)
    (fun y hy x hx => IsGrid_get_isSome snr W H y x hsnr hy hx)
    hg.2 hg.1 hr.2 hr.1 hc.2 hc.1

theorem pointAt_isSome (data : Array2D (PointXYZColorRGBA F)) (W H : Nat)
    (hdata : data.IsGrid W H) : ∀ y < H, ∀ x < W, (pointAt data y x).isSome := by
  intro y hy x hx
  have := IsGrid_get_isSome data W H y x hdata hy hx
  simpa [pointAt] using this

theorem colorAt_isSome (data : Array2D (PointXYZColorRGBA F)) (W H : Nat)
    (hdata : data.IsGrid W H) : ∀ y < H, ∀ x < W, (colorAt data y x).isSome := by
  intro y hy x hx
  have := IsGrid_get_isSome data W H y x hdata hy hx
  simpa [colorAt] using this

theorem confidenceAt_isSome (snr : Array2D (SNR F)) (W H : Nat)
    (hsnr : snr.IsGrid W H) : ∀ y < H, ∀ x < W, (confidenceAt snr y x).isSome := by
  intro y hy x hx
  have := IsGrid_get_isSome snr W H y x hsnr hy hx
  simpa [confidenceAt] using this

/-! ## Lemmas: Grab and the driver -/

theorem GetZividComponent_of_fst {α : Type} (slot : Option (Component α))
    (alloc : Nat → Nat → Option (Component α)) (X Y : Nat) (pData : Option (List α))
    (pPitch : Nat) (comp : Component α)
    (h : (GetZividComponent slot alloc X Y pData pPitch).1 = some comp) :
    GetZividComponent slot alloc X Y pData pPitch = (some comp, comp.host, comp.pitch) := by
  unfold GetZividComponent at h ⊢
  cases slot with
  | some c0 =>
    simp only [Option.some.injEq] at h
    subst h
    rfl
  | none =>
    cases ha : alloc X Y with
    | none => simp [ha] at h
    | some c0 =>
      simp only [ha, Option.some.injEq] at h
      subst h
      simp [ha]

/-- A successful capture of a well-formed frame into buffers that contain the
grid: Grab returns true and the three components hold the grid writes. -/
theorem Grab_success (mil : Mil F) (s : SZividObjects F) (k : MilContainer F)
    (frame : Frame F) (cloud : PointCloud F)
    (data : Array2D (PointXYZColorRGBA F)) (snr : Array2D (SNR F))
    (geom : List (SPoint3d F)) (refl : List SColor) (conf : List F) (Pg Pr Pc : Nat)
    (hcap : s.Camera.capture s.Settings = some frame) (hcloud : frame.pointCloud = some cloud)
    (hdata : cloud.copyData = some data) (hsnr : cloud.copySNRs = some snr)
    (hdg : data.IsGrid cloud.width cloud.height) (hsg : snr.IsGrid cloud.width cloud.height)
    (hG : (GetZividComponent k.range mil.allocRange cloud.width cloud.height none
      mil.indeterminate).1 = some ⟨some geom, Pg⟩)
    (hR : (GetZividComponent k.reflectance mil.allocReflectance cloud.width cloud.height none
      mil.indeterminate).1 = some ⟨some refl, Pr⟩)
    (hC : (GetZividComponent k.confidence mil.allocConfidence cloud.width cloud.height none
      mil.indeterminate).1 = some ⟨some conf, Pc⟩)
    (hg : InBounds cloud.width cloud.height Pg geom.length)
    (hr : InBounds cloud.width cloud.height Pr refl.length)
    (hc : InBounds cloud.width cloud.height Pc conf.length) :
    Grab mil s k = .returned true
      ⟨some ⟨some (writeGrid (pointAt data) Pg cloud.width cloud.height geom), Pg⟩,
       some ⟨some (writeGrid (colorAt data) Pr cloud.width cloud.height refl), Pr⟩,
       some ⟨some (writeGrid (confidenceAt snr) Pc cloud.width cloud.height conf), Pc⟩⟩ := by
  have eG := GetZividComponent_of_fst _ _ _ _ _ _ _ hG
  have eR := GetZividComponent_of_fst _ _ _ _ _ _ _ hR
  have eC := GetZividComponent_of_fst _ _ _ _ _ _ _ hC
  simp only [Grab, hcap, hcloud, hdata, hsnr, eG, eR, eC,
    copyLoop_grid data snr cloud.width cloud.height Pg Pr Pc geom refl conf hdg hsg hg hr hc]
  simp [MilContainer.withHost]

theorem Grab_of_captureFails (mil : Mil F) (s : SZividObjects F) (k : MilContainer F)
    (h : CaptureFails s.Camera s.Settings) : Grab mil s k = .returned false k := by
  rcases h with h | ⟨frame, h1, h2⟩
  · simp [Grab, h]
  · simp [Grab, h1, h2]

theorem freeDevice_trace {T K : Type} (S : Sensor3d T K) (t : List Event) (s : T) (b : Bool) :
    ∃ post, (freeDevice S t s b).trace = t ++ Event.Free :: post ∧
      ∀ e ∈ post, e.isStage = false := by
  unfold freeDevice
  cases S.Free s with
  | fault s' => exact ⟨[], by simp, by simp⟩
  | returned r s' =>
    cases b with
    | true => exact ⟨[.PromptEnd, .MsysFree, .MappFree], by simp [finish], by simp [Event.isStage]⟩
    | false =>
      exact ⟨[.PrintErrorOccured, .PromptEnd, .MsysFree, .MappFree], by simp [finish],
        by simp [Event.isStage]⟩

/-! ## Claims -/

/-- Claim C1: for every frame of width `W` and height `H` (both arrays hold one
element per grid cell), every geometry pitch `Pg ≥ W` and confidence pitch
`Pc ≥ W`, and destination buffers that contain the grid, the copy loop of Grab
completes, and afterwards for every `x < W`, `y < H` the geometry buffer at
index `x + y * Pg` holds exactly the position of frame sample `(y, x)` and the
confidence buffer at index `x + y * Pc` holds exactly its SNR value. -/
theorem copyLoop_stores_geometry_and_confidence
    (data : Array2D (PointXYZColorRGBA F)) (snr : Array2D (SNR F))
    (W H Pg Pr Pc : Nat) (geom : List (SPoint3d F)) (refl : List SColor) (conf : List F)
    (hdata : data.IsGrid W H) (hsnr : snr.IsGrid W H)
    (hPg : W ≤ Pg) (hPc : W ≤ Pc)
    (hg : InBounds W H Pg geom.length) (hr : InBounds W H Pr refl.length)
    (hc : InBounds W H Pc conf.length) :
    ∃ geomOut reflOut confOut,
      copyLoop data snr W H Pg Pr Pc ⟨some geom, some refl, some conf⟩ =
        .ok ⟨some geomOut, some reflOut, some confOut⟩ ∧
      ∀ y < H, ∀ x < W, ∃ p s, data.get y x = some p ∧ snr.get y x = some s ∧
        geomOut[x + y * Pg]? = some ⟨p.point.x, p.point.y, p.point.z⟩ ∧
        confOut[x + y * Pc]? = some s.value := by
  refine ⟨_, _, _, copyLoop_grid data snr W H Pg Pr Pc geom refl conf hdata hsnr hg hr hc, ?_⟩
  intro y hy x hx
  obtain ⟨p, hp⟩ := Option.isSome_iff_exists.mp (IsGrid_get_isSome data W H y x hdata hy hx)
  obtain ⟨s, hs⟩ := Option.isSome_iff_exists.mp (IsGrid_get_isSome snr W H y x hsnr hy hx)
  refine ⟨p, s, hp, hs, ?_, ?_⟩
  · exact writeGrid_val _ Pg W H geom x y _ hPg hx hy (hg.2 y hy x hx) (by simp [pointAt, hp])
  · exact writeGrid_val _ Pc W H conf x y _ hPc hx hy (hc.2 y hy x hx)
      (by simp [confidenceAt, hs])

/-- Witness for C1: the 2 by 1 scenario frame with pitch 2 gives geometry
`[(1,2,3), (4,5,6)]` and confidence `[0.9, 0.5]`. -/
theorem copyLoop_stores_geometry_and_confidence_witness :
    (scenarioData.IsGrid 2 1 ∧ scenarioSnr.IsGrid 2 1 ∧ 2 ≤ 2 ∧ InBounds 2 1 2 2) ∧
    (∃ geomOut reflOut confOut,
      copyLoop scenarioData scenarioSnr 2 1 2 2 2
          ⟨some [⟨0, 0, 0⟩, ⟨0, 0, 0⟩], some [⟨0, 0, 0, 0⟩, ⟨0, 0, 0, 0⟩], some [0, 0]⟩ =
        .ok ⟨some geomOut, some reflOut, some confOut⟩ ∧
      ∀ y < 1, ∀ x < 2, ∃ p s, scenarioData.get y x = some p ∧ scenarioSnr.get y x = some s ∧
        geomOut[x + y * 2]? = some ⟨p.point.x, p.point.y, p.point.z⟩ ∧
        confOut[x + y * 2]? = some s.value) ∧
    copyLoop scenarioData scenarioSnr 2 1 2 2 2
        ⟨some [⟨0, 0, 0⟩, ⟨0, 0, 0⟩], some [⟨0, 0, 0, 0⟩, ⟨0, 0, 0, 0⟩], some [0, 0]⟩ =
      .ok ⟨some [⟨1, 2, 3⟩, ⟨4, 5, 6⟩], some [⟨10, 20, 30, 255⟩, ⟨40, 50, 60, 255⟩],
        some [0.9, 0.5]⟩ :=
  ⟨⟨by decide, by decide, by decide, by decide⟩,
   copyLoop_stores_geometry_and_confidence scenarioData scenarioSnr 2 1 2 2 2
     [⟨0, 0, 0⟩, ⟨0, 0, 0⟩] [⟨0, 0, 0, 0⟩, ⟨0, 0, 0, 0⟩] [0, 0]
     (by decide) (by decide) (by decide) (by decide) (by decide) (by decide) (by decide),
   rfl⟩

/-- Claim C2: for every frame size `W` by `H` and destination pitches at least
`W`, the copy loop of Grab completes and, in each of the three buffers, stores
the sample of cell `(y, x)` at index `x + y * P` for every cell, changes no index
outside the set of these indices, which has exactly `W * H` elements, and in
particular leaves every index `j` with `j mod P ≥ W` (row padding) as it was. -/
theorem copyLoop_writes_exactly_the_grid
    (data : Array2D (PointXYZColorRGBA F)) (snr : Array2D (SNR F))
    (W H Pg Pr Pc : Nat) (geom : List (SPoint3d F)) (refl : List SColor) (conf : List F)
    (hdata : data.IsGrid W H) (hsnr : snr.IsGrid W H)
    (hPg : W ≤ Pg) (hPr : W ≤ Pr) (hPc : W ≤ Pc)
    (hg : InBounds W H Pg geom.length) (hr : InBounds W H Pr refl.length)
    (hc : InBounds W H Pc conf.length) :
    ∃ geomOut reflOut confOut,
      copyLoop data snr W H Pg Pr Pc ⟨some geom, some refl, some conf⟩ =
        .ok ⟨some geomOut, some reflOut, some confOut⟩ ∧
      WritesExactlyGrid (pointAt data) W H Pg geom geomOut ∧
      WritesExactlyGrid (colorAt data) W H Pr refl reflOut ∧
      WritesExactlyGrid (confidenceAt snr) W H Pc conf confOut ∧
      (gridIndexSet W H Pg).card = W * H ∧
      (gridIndexSet W H Pr).card = W * H ∧
      (gridIndexSet W H Pc).card = W * H ∧
      ∀ j, (W ≤ j % Pg → geomOut[j]? = geom[j]?) ∧ (W ≤ j % Pr → reflOut[j]? = refl[j]?) ∧
        (W ≤ j % Pc → confOut[j]? = conf[j]?) := by
  have eg := writeGrid_exact (pointAt data) W H Pg geom hPg (pointAt_isSome data W H hdata) hg.2
  have er := writeGrid_exact (colorAt data) W H Pr refl hPr (colorAt_isSome data W H hdata) hr.2
  have ec := writeGrid_exact (confidenceAt snr) W H Pc conf hPc
    (confidenceAt_isSome snr W H hsnr) hc.2
  refine ⟨_, _, _, copyLoop_grid data snr W H Pg Pr Pc geom refl conf hdata hsnr hg hr hc,
    eg, er, ec, card_gridIndexSet W H Pg hPg, card_gridIndexSet W H Pr hPr,
    card_gridIndexSet W H Pc hPc, ?_⟩
  intro j
  exact ⟨fun h => eg.2.2 j (padding_not_mem_gridIndexSet W H Pg j hPg h),
    fun h => er.2.2 j (padding_not_mem_gridIndexSet W H Pr j hPr h),
    fun h => ec.2.2 j (padding_not_mem_gridIndexSet W H Pc j hPc h)⟩

/-- Witness for C2: `W = 2`, `H = 1`, pitch 4.  The index for `(x = 1, y = 0)` is
1, the written indices are 0 and 1, and indices 2 and 3 keep their content. -/
theorem copyLoop_writes_exactly_the_grid_witness :
    (scenarioData.IsGrid 2 1 ∧ scenarioSnr.IsGrid 2 1 ∧ 2 ≤ 4 ∧ InBounds 2 1 4 4) ∧
    (∃ geomOut reflOut confOut,
      copyLoop scenarioData scenarioSnr 2 1 4 4 4
          ⟨some [⟨7, 7, 7⟩, ⟨7, 7, 7⟩, ⟨7, 7, 7⟩, ⟨7, 7, 7⟩],
           some [⟨7, 7, 7, 7⟩, ⟨7, 7, 7, 7⟩, ⟨7, 7, 7, 7⟩, ⟨7, 7, 7, 7⟩],
           some [7, 7, 7, 7]⟩ =
        .ok ⟨some geomOut, some reflOut, some confOut⟩ ∧
      WritesExactlyGrid (pointAt scenarioData) 2 1 4
        [⟨7, 7, 7⟩, ⟨7, 7, 7⟩, ⟨7, 7, 7⟩, ⟨7, 7, 7⟩] geomOut ∧
      WritesExactlyGrid (colorAt scenarioData) 2 1 4
        [⟨7, 7, 7, 7⟩, ⟨7, 7, 7, 7⟩, ⟨7, 7, 7, 7⟩, ⟨7, 7, 7, 7⟩] reflOut ∧
      WritesExactlyGrid (confidenceAt scenarioSnr) 2 1 4 [7, 7, 7, 7] confOut ∧
      (gridIndexSet 2 1 4).card = 2 * 1 ∧
      (gridIndexSet 2 1 4).card = 2 * 1 ∧
      (gridIndexSet 2 1 4).card = 2 * 1 ∧
      ∀ j, (2 ≤ j % 4 → geomOut[j]? = [⟨7, 7, 7⟩, ⟨7, 7, 7⟩, ⟨7, 7, 7⟩, ⟨7, 7, 7⟩][j]?) ∧
        (2 ≤ j % 4 →
          reflOut[j]? = [⟨7, 7, 7, 7⟩, ⟨7, 7, 7, 7⟩, ⟨7, 7, 7, 7⟩, ⟨7, 7, 7, 7⟩][j]?) ∧
        (2 ≤ j % 4 → confOut[j]? = [7, 7, 7, 7][j]?)) ∧
    linearIndex 1 0 4 = 1 ∧ gridIndexSet 2 1 4 = {0, 1} ∧
    copyLoop scenarioData scenarioSnr 2 1 4 4 4
        ⟨some [⟨7, 7, 7⟩, ⟨7, 7, 7⟩, ⟨7, 7, 7⟩, ⟨7, 7, 7⟩],
         some [⟨7, 7, 7, 7⟩, ⟨7, 7, 7, 7⟩, ⟨7, 7, 7, 7⟩, ⟨7, 7, 7, 7⟩],
         some [7, 7, 7, 7]⟩ =
      .ok ⟨some [⟨1, 2, 3⟩, ⟨4, 5, 6⟩, ⟨7, 7, 7⟩, ⟨7, 7, 7⟩],
           some [⟨10, 20, 30, 255⟩, ⟨40, 50, 60, 255⟩, ⟨7, 7, 7, 7⟩, ⟨7, 7, 7, 7⟩],
           some [0.9, 0.5, 7, 7]⟩ :=
  ⟨⟨by decide, by decide, by decide, by decide⟩,
   copyLoop_writes_exactly_the_grid scenarioData scenarioSnr 2 1 4 4 4
     [⟨7, 7, 7⟩, ⟨7, 7, 7⟩, ⟨7, 7, 7⟩, ⟨7, 7, 7⟩]
     [⟨7, 7, 7, 7⟩, ⟨7, 7, 7, 7⟩, ⟨7, 7, 7, 7⟩, ⟨7, 7, 7, 7⟩] [7, 7, 7, 7]
     (by decide) (by decide) (by decide) (by decide) (by decide) (by decide) (by decide)
     (by decide),
   by decide, by decide, rfl⟩

/-- Counterexample to C3: on the 2 by 1 scenario frame with pitch 2, Grab
succeeds and the reflectance buffer holds `(10,20,30,255)` and `(40,50,60,255)`,
the source colours in source channel order, not `(30,20,10,255)` and
`(60,50,40,255)`. -/
theorem Grab_colour_not_swapped_counterexample :
    Grab packedMil scenarioSensor emptyContainer = .returned true
      ⟨some ⟨some [⟨1, 2, 3⟩, ⟨4, 5, 6⟩], 2⟩,
       some ⟨some [⟨10, 20, 30, 255⟩, ⟨40, 50, 60, 255⟩], 2⟩,
       some ⟨some [0.9, 0.5], 2⟩⟩ ∧
    scenarioData.get 0 0 = some ⟨⟨1, 2, 3⟩, ⟨10, 20, 30, 255⟩⟩ ∧
    scenarioData.get 0 1 = some ⟨⟨4, 5, 6⟩, ⟨40, 50, 60, 255⟩⟩ ∧
    (⟨10, 20, 30, 255⟩ : SColor) ≠ ⟨30, 20, 10, 255⟩ ∧
    (⟨40, 50, 60, 255⟩ : SColor) ≠ ⟨60, 50, 40, 255⟩ :=
  ⟨rfl, rfl, rfl, by decide, by decide⟩

/-- Claim C3, amended: when the capture succeeds with a well-formed frame, the
three destination components have non-null buffers that contain the grid, and
the reflectance pitch is at least the width, Grab succeeds and for every
`x < W`, `y < H` the reflectance buffer at index `x + y * ReflectancePitch` holds
the colour of frame sample `(y, x)` unchanged: all four channels in the source
order, with no exchange of the first and third channels. -/
theorem Grab_stores_colour_in_source_order
    (mil : Mil F) (s : SZividObjects F) (k : MilContainer F)
    (frame : Frame F) (cloud : PointCloud F)
    (data : Array2D (PointXYZColorRGBA F)) (snr : Array2D (SNR F))
    (geom : List (SPoint3d F)) (refl : List SColor) (conf : List F) (Pg Pr Pc : Nat)
    (hcap : s.Camera.capture s.Settings = some frame) (hcloud : frame.pointCloud = some cloud)
    (hdata : cloud.copyData = some data) (hsnr : cloud.copySNRs = some snr)
    (hdg : data.IsGrid cloud.width cloud.height) (hsg : snr.IsGrid cloud.width cloud.height)
    (hG : (GetZividComponent k.range mil.allocRange cloud.width cloud.height none
      mil.indeterminate).1 = some ⟨some geom, Pg⟩)
    (hR : (GetZividComponent k.reflectance mil.allocReflectance cloud.width cloud.height none
      mil.indeterminate).1 = some ⟨some refl, Pr⟩)
    (hC : (GetZividComponent k.confidence mil.allocConfidence cloud.width cloud.height none
      mil.indeterminate).1 = some ⟨some conf, Pc⟩)
    (hPr : cloud.width ≤ Pr)
    (hg : InBounds cloud.width cloud.height Pg geom.length)
    (hr : InBounds cloud.width cloud.height Pr refl.length)
    (hc : InBounds cloud.width cloud.height Pc conf.length) :
    ∃ kOut reflOut, Grab mil s k = .returned true kOut ∧
      kOut.reflectance = some ⟨some reflOut, Pr⟩ ∧
      ∀ y < cloud.height, ∀ x < cloud.width, ∃ p, data.get y x = some p ∧
        reflOut[x + y * Pr]? = some ⟨p.color.r, p.color.g, p.color.b, p.color.a⟩ := by
  refine ⟨_, _, Grab_success mil s k frame cloud data snr geom refl conf Pg Pr Pc hcap hcloud
    hdata hsnr hdg hsg hG hR hC hg hr hc, rfl, ?_⟩
  intro y hy x hx
  obtain ⟨p, hp⟩ := Option.isSome_iff_exists.mp
    (IsGrid_get_isSome data cloud.width cloud.height y x hdg hy hx)
  refine ⟨p, hp, ?_⟩
  exact writeGrid_val _ Pr cloud.width cloud.height refl x y _ hPr hx hy (hr.2 y hy x hx)
    (by simp [colorAt, hp, asSColor])

/-- Witness for the amended C3: the 2 by 1 scenario frame grabbed into an empty
container, with MIL allocating unpadded buffers. -/
theorem Grab_stores_colour_in_source_order_witness :
    (scenarioData.IsGrid 2 1 ∧ scenarioSnr.IsGrid 2 1 ∧ 2 ≤ 2 ∧ InBounds 2 1 2 2) ∧
    ∃ kOut reflOut, Grab packedMil scenarioSensor emptyContainer = .returned true kOut ∧
      kOut.reflectance = some ⟨some reflOut, 2⟩ ∧
      ∀ y < 1, ∀ x < 2, ∃ p, scenarioData.get y x = some p ∧
        reflOut[x + y * 2]? = some ⟨p.color.r, p.color.g, p.color.b, p.color.a⟩ :=
  ⟨⟨by decide, by decide, by decide, by decide⟩,
   Grab_stores_colour_in_source_order packedMil scenarioSensor emptyContainer
    ⟨some ⟨2, 1, some scenarioData, some scenarioSnr⟩⟩
    ⟨2, 1, some scenarioData, some scenarioSnr⟩
    scenarioData scenarioSnr [⟨0, 0, 0⟩, ⟨0, 0, 0⟩] [⟨0, 0, 0, 0⟩, ⟨0, 0, 0, 0⟩] [0, 0] 2 2 2
    rfl rfl rfl rfl (by decide) (by decide) rfl rfl rfl (by decide) (by decide) (by decide)
    (by decide)⟩

/-- Counterexample to C4: converting `(10,20,30,255)` into a zeroed colour and
converting that into another zeroed colour yields `(10,20,30,0)`, which differs
from the original in the alpha channel. -/
theorem ConvertRGBBGR_twice_loses_alpha_counterexample :
    colourMemScenario 1 = ⟨10, 20, 30, 255⟩ ∧
    ConvertRGBBGR (ConvertRGBBGR colourMemScenario 2 1) 3 2 3 = ⟨10, 20, 30, 0⟩ ∧
    ConvertRGBBGR (ConvertRGBBGR colourMemScenario 2 1) 3 2 3 ≠ colourMemScenario 1 := by
  decide

/-- Claim C4, amended: for a colour at address `c`, converting it into a distinct
object `d1` and converting `d1` into an object `d2` distinct from `d1` leaves in
`d2` the `x`, `y`, `z` channels of `c` and the alpha `d2` had before; the result
equals `c` in all four channels exactly when that prior alpha equals the alpha
of `c` (as when `d2` is `c` itself). -/
theorem ConvertRGBBGR_twice_restores_xyz (m : ColorMem) (c d1 d2 : Nat)
    (h1 : d1 ≠ c) (h2 : d2 ≠ d1) :
    ConvertRGBBGR (ConvertRGBBGR m d1 c) d2 d1 d2 =
        ⟨(m c).x, (m c).y, (m c).z, (m d2).a⟩ ∧
      (ConvertRGBBGR (ConvertRGBBGR m d1 c) d2 d1 d2 = m c ↔ (m d2).a = (m c).a) := by
  have key : ConvertRGBBGR (ConvertRGBBGR m d1 c) d2 d1 d2 =
      ⟨(m c).x, (m c).y, (m c).z, (m d2).a⟩ := by
    have e1 := (ConvertRGBBGR_apply (ConvertRGBBGR m d1 c) d2 d1 h2).1
    have e2 := ConvertRGBBGR_apply m d1 c h1
    rw [e1, e2.1, e2.2 d2 h2]
  refine ⟨key, ?_⟩
  rw [key]
  constructor
  · intro h
    have := congrArg SColor.a h
    simpa using this
  · intro h
    cases hc : m c
    simp [hc] at h ⊢
    exact h

/-- Witness for the amended C4: conversion of the colour at address 1 into
address 2 and from there into address 3. -/
theorem ConvertRGBBGR_twice_restores_xyz_witness :
    ((2 : Nat) ≠ 1 ∧ (3 : Nat) ≠ 2) ∧
    (ConvertRGBBGR (ConvertRGBBGR colourMemScenario 2 1) 3 2 3 =
        ⟨(colourMemScenario 1).x, (colourMemScenario 1).y, (colourMemScenario 1).z,
          (colourMemScenario 3).a⟩ ∧
      (ConvertRGBBGR (ConvertRGBBGR colourMemScenario 2 1) 3 2 3 = colourMemScenario 1 ↔
        (colourMemScenario 3).a = (colourMemScenario 1).a)) :=
  ⟨⟨by decide, by decide⟩,
   ConvertRGBBGR_twice_restores_xyz colourMemScenario 1 2 3 (by decide) (by decide)⟩

/-- Counterexample to C5: converting the source `(10,20,30,255)` into a
destination holding `(0,0,0,0)` leaves `(30,20,10,0)` in the destination, whose
alpha is not the alpha of the source. -/
theorem ConvertRGBBGR_alpha_not_copied_counterexample :
    colourMemScenario 1 = ⟨10, 20, 30, 255⟩ ∧
    colourMemScenario 0 = ⟨0, 0, 0, 0⟩ ∧
    ConvertRGBBGR colourMemScenario 0 1 0 = ⟨30, 20, 10, 0⟩ ∧
    ConvertRGBBGR colourMemScenario 0 1 0 ≠
      ⟨(colourMemScenario 1).z, (colourMemScenario 1).y, (colourMemScenario 1).x,
        (colourMemScenario 1).a⟩ := by
  decide

/-- Claim C5, amended: for every source colour and every prior state of a
distinct destination colour, after `ConvertRGBBGR` the destination holds
`(s.z, s.y, s.x)` in its first three channels and its own prior alpha (the
method never assigns `a`), and every other object is unchanged. -/
theorem ConvertRGBBGR_swaps_xz_keeps_own_alpha (m : ColorMem) (self OtherColor : Nat)
    (h : self ≠ OtherColor) :
    ConvertRGBBGR m self OtherColor self =
        ⟨(m OtherColor).z, (m OtherColor).y, (m OtherColor).x, (m self).a⟩ ∧
      ∀ q, q ≠ self → ConvertRGBBGR m self OtherColor q = m q :=
  ConvertRGBBGR_apply m self OtherColor h

/-- Witness for the amended C5: `(10,20,30,255)` converted into a zeroed
destination gives `(30,20,10,0)`. -/
theorem ConvertRGBBGR_swaps_xz_keeps_own_alpha_witness :
    (0 : Nat) ≠ 1 ∧ ConvertRGBBGR colourMemScenario 0 1 0 = ⟨30, 20, 10, 0⟩ :=
  ⟨by decide, (ConvertRGBBGR_swaps_xz_keeps_own_alpha colourMemScenario 0 1 (by decide)).1⟩

/-- Claim C6: in `Interface3dCameraExample`, whatever the stage functions do, if
`Init` returns failure then the calls made are exactly the MIL application and
system allocation, `Init`, the error message, the final prompt and the release
of the MIL objects: `SetupForExample`, `Grab` and `DisplayPointCloudData` are
never invoked, no container is allocated, and `Free` is not called. -/
theorem Interface3dCameraExample_init_failure_skips_stages {T K : Type} (S : Sensor3d T K)
    (container : K) (pSensor3d s1 : T) (hInit : S.Init pSensor3d = .returned false s1) :
    (Interface3dCameraExample S container pSensor3d).trace =
        [.MappAlloc, .MsysAlloc, .Init, .PrintErrorOccured, .PromptEnd, .MsysFree, .MappFree] ∧
      Event.SetupForExample ∉ (Interface3dCameraExample S container pSensor3d).trace ∧
      Event.Grab ∉ (Interface3dCameraExample S container pSensor3d).trace ∧
      Event.DisplayPointCloudData ∉ (Interface3dCameraExample S container pSensor3d).trace ∧
      Event.MbufAllocContainer ∉ (Interface3dCameraExample S container pSensor3d).trace ∧
      Event.Free ∉ (Interface3dCameraExample S container pSensor3d).trace := by
  have h : (Interface3dCameraExample S container pSensor3d).trace =
      [.MappAlloc, .MsysAlloc, .Init, .PrintErrorOccured, .PromptEnd, .MsysFree, .MappFree] := by
    simp [Interface3dCameraExample, hInit, finish]
  rw [h]
  simp

/-- Witness for C6: the Zivid stages on a sensor to which no camera connects. -/
theorem Interface3dCameraExample_init_failure_skips_stages_witness :
    (zividStages packedMil).Init unpluggedSensor = .returned false unpluggedSensor ∧
    (Interface3dCameraExample (zividStages packedMil) emptyContainer unpluggedSensor).trace =
      [.MappAlloc, .MsysAlloc, .Init, .PrintErrorOccured, .PromptEnd, .MsysFree, .MappFree] :=
  ⟨rfl, (Interface3dCameraExample_init_failure_skips_stages (zividStages packedMil)
    emptyContainer unpluggedSensor unpluggedSensor rfl).1⟩

/-- Claim C7: in `Interface3dCameraExample`, if `Init` succeeded then, for every
success or failure result of `SetupForExample` and (when it is reached) of
`Grab`, `Free` is called exactly once, and no stage or container call follows
it. -/
theorem Interface3dCameraExample_frees_exactly_once {T K : Type} (S : Sensor3d T K)
    (container : K) (pSensor3d s1 : T) (hInit : S.Init pSensor3d = .returned true s1)
    (hRet : ∃ b s2, S.SetupForExample s1 = .returned b s2 ∧
      (b = true → ∃ b' r, S.Grab s2 container = .returned b' r)) :
    ∃ pre post,
      (Interface3dCameraExample S container pSensor3d).trace = pre ++ Event.Free :: post ∧
      Event.Free ∉ pre ∧ (∀ e ∈ post, e.isStage = false) ∧
      (Interface3dCameraExample S container pSensor3d).trace.count Event.Free = 1 := by
  obtain ⟨b, s2, hSetup, hGrab⟩ := hRet
  have main : ∃ pre post,
      (Interface3dCameraExample S container pSensor3d).trace = pre ++ Event.Free :: post ∧
      Event.Free ∉ pre ∧ (∀ e ∈ post, e.isStage = false) := by
    cases b with
    | false =>
      obtain ⟨post, hp, hpost⟩ :=
        freeDevice_trace S [.MappAlloc, .MsysAlloc, .Init, .SetupForExample] s2 false
      refine ⟨[.MappAlloc, .MsysAlloc, .Init, .SetupForExample], post, ?_, ?_, hpost⟩
      · simp only [Interface3dCameraExample, hInit, hSetup]
        exact hp
      · simp
    | true =>
      obtain ⟨b', ⟨s3, k⟩, hG⟩ := hGrab rfl
      cases b' with
      | false =>
        obtain ⟨post, hp, hpost⟩ :=
          freeDevice_trace S [.MappAlloc, .MsysAlloc, .Init, .SetupForExample,
            .MbufAllocContainer, .PromptContinue, .Grab, .PrintUnableToAcquire, .MbufFree]
            s3 false
        refine ⟨[.MappAlloc, .MsysAlloc, .Init, .SetupForExample,
            .MbufAllocContainer, .PromptContinue, .Grab, .PrintUnableToAcquire, .MbufFree],
            post, ?_, ?_, hpost⟩
        · simp only [Interface3dCameraExample, hInit, hSetup, hG]
          exact hp
        · simp
      | true =>
        obtain ⟨post, hp, hpost⟩ :=
          freeDevice_trace S [.MappAlloc, .MsysAlloc, .Init, .SetupForExample,
            .MbufAllocContainer, .PromptContinue, .Grab, .MbufControlContainer,
            .DisplayPointCloudData, .MbufFree] s3 true
        refine ⟨[.MappAlloc, .MsysAlloc, .Init, .SetupForExample,
            .MbufAllocContainer, .PromptContinue, .Grab, .MbufControlContainer,
            .DisplayPointCloudData, .MbufFree], post, ?_, ?_, hpost⟩
        · simp only [Interface3dCameraExample, hInit, hSetup, hG]
          exact hp
        · simp
  obtain ⟨pre, post, ht, hpre, hpost⟩ := main
  refine ⟨pre, post, ht, hpre, hpost, ?_⟩
  have hpost' : Event.Free ∉ post := fun hmem => by
    have := hpost _ hmem
    simp [Event.isStage] at this
  rw [ht, List.count_append, List.count_cons_self, List.count_eq_zero_of_not_mem hpre,
    List.count_eq_zero_of_not_mem hpost']

/-- Witness for C7: the Zivid stages on the scenario sensor; every stage
succeeds and `Free` is the last stage call of the run. -/
theorem Interface3dCameraExample_frees_exactly_once_witness :
    (∃ pre post,
      (Interface3dCameraExample (zividStages packedMil) emptyContainer scenarioSensor).trace =
        pre ++ Event.Free :: post ∧
      Event.Free ∉ pre ∧ (∀ e ∈ post, e.isStage = false) ∧
      (Interface3dCameraExample (zividStages packedMil) emptyContainer
        scenarioSensor).trace.count Event.Free = 1) ∧
    (Interface3dCameraExample (zividStages packedMil) emptyContainer scenarioSensor).trace =
      [.MappAlloc, .MsysAlloc, .Init, .SetupForExample, .MbufAllocContainer, .PromptContinue,
       .Grab, .MbufControlContainer, .DisplayPointCloudData, .MbufFree, .Free, .PromptEnd,
       .MsysFree, .MappFree] :=
  ⟨Interface3dCameraExample_frees_exactly_once (zividStages packedMil) emptyContainer
    scenarioSensor _ rfl ⟨true, _, rfl, fun _ => ⟨true, _, rfl⟩⟩, rfl⟩

/-- Claim C8, evaluated on the code: with a 1 by 1 frame, range and confidence
components present and the reflectance component absent and not allocatable,
Grab stores the sample position into the geometry buffer and then stores
through the null reflectance pointer; it does not return failure.  With a frame
without samples and no component allocatable, Grab returns success. -/
theorem Grab_null_buffer_is_not_checked :
    Grab exhaustedMil singleSensor noReflectanceContainer =
      .fault ⟨some ⟨some [⟨1, 2, 3⟩], 1⟩, none, some ⟨some [0], 1⟩⟩ ∧
    Grab exhaustedMil emptyFrameSensor emptyContainer = .returned true emptyContainer :=
  ⟨rfl, rfl⟩

/-- Claim C10: if the capture call fails (`Camera.capture` or `Frame.pointCloud`
raises) for the sensor that reaches Grab, then Grab returns failure on every
container and leaves it exactly as it was (no component allocated, no sample
written), and `Interface3dCameraExample` never invokes `DisplayPointCloudData`
and ends with `Success` false. -/
theorem Grab_capture_failure_leaves_container (mil : Mil F) (container : MilContainer F)
    (pSensor3d s1 s2 : SZividObjects F)
    (hInit : Init pSensor3d = .returned true s1)
    (hSetup : SetupForExample s1 = .returned true s2)
    (hCapture : CaptureFails s2.Camera s2.Settings) :
    (∀ k, Grab mil s2 k = .returned false k) ∧
      Event.DisplayPointCloudData ∉
        (Interface3dCameraExample (zividStages mil) container pSensor3d).trace ∧
      (Interface3dCameraExample (zividStages mil) container pSensor3d).Success = false := by
  have hG : ∀ k, Grab mil s2 k = .returned false k :=
    fun k => Grab_of_captureFails mil s2 k hCapture
  refine ⟨hG, ?_, ?_⟩
  · simp only [Interface3dCameraExample, zividStages, hInit, hSetup, hG, freeDevice]
    cases Free s2 <;> simp [finish]
  · simp only [Interface3dCameraExample, zividStages, hInit, hSetup, hG, freeDevice]
    cases Free s2 <;> simp [finish]

/-- Witness for C10: a sensor whose camera connects but whose capture raises. -/
theorem Grab_capture_failure_leaves_container_witness :
    ((∀ k, Grab packedMil { blindSensor with Settings := exampleSettings } k =
        .returned false k) ∧
      Event.DisplayPointCloudData ∉
        (Interface3dCameraExample (zividStages packedMil) emptyContainer blindSensor).trace ∧
      (Interface3dCameraExample (zividStages packedMil) emptyContainer blindSensor).Success =
        false) ∧
    (Interface3dCameraExample (zividStages packedMil) emptyContainer blindSensor).trace =
      [.MappAlloc, .MsysAlloc, .Init, .SetupForExample, .MbufAllocContainer, .PromptContinue,
       .Grab, .PrintUnableToAcquire, .MbufFree, .Free, .PrintErrorOccured, .PromptEnd,
       .MsysFree, .MappFree] :=
  ⟨Grab_capture_failure_leaves_container packedMil emptyContainer blindSensor blindSensor
    { blindSensor with Settings := exampleSettings } rfl rfl (Or.inl rfl), rfl⟩

end ZividMil
